import Mathlib

/-!
Shallow embedding of the `libgorjun` client library (files `auth.go` and
`gorjun.go`) and proofs about its authentication handshake and file
operations.

The library talks to external collaborators: an HTTP transport, the local
filesystem, and the `openpgp` crypto package.  Those collaborators are
modelled explicitly: each operation takes the answer of the collaborator
(response body, file-existence flags, keyring parse results) as an input,
and the pure control flow of the Go source is translated faithfully on top
of it.  Stateful methods on `GorjunServer` become functions returning the
updated record together with an optional error message (`none` = the Go
method returned `nil`).
-/

namespace Gorjun

/-- The `GorjunServer` struct from `gorjun.go` (the fields used by the
authentication and file operations). -/
structure GorjunServer where
  Username : String
  Email : String
  Hostname : String
  GPGDirectory : String
  Token : String
  TokenCode : String
  Passphrase : String
deriving DecidableEq, Repr

/-- Outcome of one HTTP round trip as the client observes it: a transport
error from `http.Get`/`http.Post`, a body-read error from
`ioutil.ReadAll`, or a successfully read body. -/
inductive FetchResult where
  | transportErr (msg : String)
  | readErr (msg : String)
  | ok (body : String)
deriving DecidableEq, Repr

/-- `GetAuthTokenCode` from `auth.go` (lines 47-59): request the challenge
code; on success store the raw body in `TokenCode`, on any error return
the wrapped error message and leave the state unchanged. -/
def GetAuthTokenCode (g : GorjunServer) (resp : FetchResult) :
    GorjunServer × Option String :=
  match resp with
  | .transportErr e => (g, some ("Failed to retrieve unsigned token: " ++ e))
  | .readErr e => (g, some ("Failed to read body from " ++ g.Hostname ++ ": " ++ e))
  | .ok data => ({ g with TokenCode := data }, none)

/-- The form fields of the token-exchange POST built by `GetActiveToken`
(`message` = the signed envelope, `user` = the username). -/
structure AuthPostForm where
  message : String
  user : String
deriving DecidableEq, Repr

/-- `GetActiveToken` from `auth.go` (lines 63-86): build the signed
envelope, POST it, and interpret the response body as the session token.
Returns the submitted form, the updated state, and the optional error. -/
def GetActiveToken (g : GorjunServer) (signed : String) (resp : FetchResult) :
    AuthPostForm × GorjunServer × Option String :=
  let signedMsg :=
    "-----BEGIN PGP SIGNED MESSAGE-----\nHash: SHA256\n\n" ++ g.TokenCode
      ++ "\n" ++ signed ++ "\n"
  let outcome : GorjunServer × Option String :=
    match resp with
    | .transportErr e => (g, some ("Failed to retrieve active token: " ++ e))
    | .readErr e => (g, some ("Failed to read body from " ++ g.Hostname ++ ": " ++ e))
    | .ok data =>
      let g1 := { g with Token := data }
      if g1.Token.length ≠ 64 then
        let reason := g1.Token
        ({ g1 with Token := "" },
          some ("Failed to retrieve active token: " ++ reason))
      else
        (g1, none)
  (⟨signedMsg, g.Username⟩, outcome)

/-- One identity binding of a key entity (`ident.UserId.Email`). -/
structure Identity where
  email : String
deriving DecidableEq, Repr

/-- Private-key material, modelling the `openpgp` collaborator: whether the
key is still encrypted, and which passphrase decrypts it. -/
structure PrivateKeyMat where
  encrypted : Bool
  passphraseOf : String
deriving DecidableEq, Repr

/-- A keyring entity: its identity bindings and (for the private ring) its
private-key material. -/
structure Entity where
  identities : List Identity
  privKey : PrivateKeyMat
deriving DecidableEq, Repr

/-- Whether some bound identity of the entity carries exactly this email. -/
def entityMatches (e : Entity) (email : String) : Bool :=
  e.identities.any (fun i => i.email == email)

/-- `getKeyByEmail` from `auth.go` (lines 88-97): scan the ring in order and
return the first entity one of whose identities has exactly this email. -/
def getKeyByEmail (keyring : List Entity) (email : String) : Option Entity :=
  match keyring with
  | [] => none
  | e :: rest =>
    if entityMatches e email then some e else getKeyByEmail rest email

/-- `PrivateKey.Decrypt` of the `openpgp` collaborator as `SignToken` uses
it: with the right passphrase the key becomes decrypted; otherwise
`Decrypt` returns an error that the Go code ignores, leaving the key
material unchanged. -/
def decryptPrivateKey (k : PrivateKeyMat) (pass : String) : PrivateKeyMat :=
  if k.encrypted && pass == k.passphraseOf then { k with encrypted := false } else k

/-- The armored detached signature produced by the `openpgp` collaborator
for a decrypted key over a token (its exact bytes are irrelevant to the
client logic; only that it is a function of key and input). -/
def armoredSig (k : PrivateKeyMat) (tok : String) : String :=
  "armored-detached-signature:" ++ k.passphraseOf ++ ":" ++ tok

/-- `openpgp.ArmoredDetachSign`: fails when the signing key is still
encrypted, otherwise produces the armored signature. -/
def armoredDetachSign (k : PrivateKeyMat) (tok : String) : Except String String :=
  if k.encrypted then .error "signing key must be decrypted"
  else .ok (armoredSig k tok)

/-- The local GnuPG directory as `SignToken` observes it: which of the
three conventional files exist, and what `openpgp.ReadKeyRing` yields on
the two keyring files. -/
structure GpgEnv where
  hasPubringGpg : Bool
  hasPubringKbx : Bool
  hasSecring : Bool
  pubringParse : Except String (List Entity)
  secringParse : Except String (List Entity)
deriving Repr

/-- `SignToken` from `auth.go` (lines 100-149), translated branch by
branch.  Note the source computes a fallback `pubringPath`
(`pubring.gpg`, else `pubring.kbx`) for the existence check, but then
opens the hardcoded `pubring.gpg` path regardless (line 113); the
translation preserves that. -/
def SignToken (g : GorjunServer) (env : GpgEnv) (tok : String) :
    Except String String :=
  if g.GPGDirectory = "" then .error "GPG Directory was not specified"
  else if env.hasPubringGpg = false ∧ env.hasPubringKbx = false then
    .error "Can't find pubring.gpg nor pubring.kbx"
  else if env.hasPubringGpg = false then
    .error "Failed to open public keyring file: file does not exist"
  else
    match env.pubringParse with
    | .error e => .error ("Failed to read public keyring: " ++ e)
    | .ok pubring =>
      match getKeyByEmail pubring g.Email with
      | none => .error ("Public key for " ++ g.Email ++ " was not found")
      | some _ =>
        if env.hasSecring = false then
          .error "Failed to open private keyring file: file does not exist"
        else
          match env.secringParse with
          | .error e => .error ("Failed to read private keyring: " ++ e)
          | .ok secring =>
            match getKeyByEmail secring g.Email with
            | none => .error ("Private key for " ++ g.Email ++ " was not found")
            | some privateKey =>
              let key :=
                if g.Passphrase ≠ "" then
                  decryptPrivateKey privateKey.privKey g.Passphrase
                else privateKey.privKey
              match armoredDetachSign key tok with
              | .error e => .error ("Failed to sign token: " ++ e)
              | .ok s => .ok s

/-- `GorjunFileHash` from `gorjun.go`. -/
structure GorjunFileHash where
  MD5 : String
  SHA : String
deriving DecidableEq, Repr

/-- `GorjunFile` from `gorjun.go`. -/
structure GorjunFile where
  Id : String
  Size : Int
  Name : String
  Owner : List String
  Hash : GorjunFileHash
deriving DecidableEq, Repr

/-- What `RemoveFile` does with the lookup result: fail on a lookup error,
hit the out-of-range index (a Go runtime panic) on an empty slice, or
call `RemoveFileByID` with an id. -/
inductive RemoveResult where
  | lookupFailed (msg : String)
  | indexPanic
  | delete (id : String)
deriving DecidableEq, Repr

/-- `RemoveFile` from `gorjun.go` (lines 128-134): look the name up, then
evaluate `file[0].Id` — with no emptiness check, so the empty slice is the
index-out-of-range panic. -/
def RemoveFile (lookup : Except String (List GorjunFile)) : RemoveResult :=
  match lookup with
  | .error e => .lookupFailed ("Failed to get file: " ++ e)
  | .ok files =>
    match files with
    | [] => .indexPanic
    | f :: _ => .delete f.Id

/-- `DownloadFile` from `gorjun.go` (lines 154-156): `return nil`. -/
def DownloadFile (g : GorjunServer) (filename outputDirectory : String) :
    GorjunServer × Option String :=
  (g, none)

/-- `DownloadFileByID` from `gorjun.go` (lines 159-161): `return nil`. -/
def DownloadFileByID (g : GorjunServer) (ID outputDirectory : String) :
    GorjunServer × Option String :=
  (g, none)

/-! Concrete sample values used to evaluate the definitions. -/

/-- A sample client state with a configured GPG directory. -/
def gEx : GorjunServer :=
  ⟨"alice", "alice@example.com", "gw.example.com", "/home/alice/.gnupg",
    "", "abc123", ""⟩

/-- A sample 64-character token body. -/
def tok64 : String :=
  "0123456789abcdef0123456789abcdef0123456789abcdef0123456789abcdef"

/-- An identity bound to the sample email. -/
def identAlice : Identity := ⟨"alice@example.com"⟩

/-- An identity bound to a different email. -/
def identBob : Identity := ⟨"bob@example.com"⟩

/-- Unencrypted private-key material. -/
def keyPlain : PrivateKeyMat := ⟨false, ""⟩

/-- Passphrase-protected private-key material. -/
def keyEncrypted : PrivateKeyMat := ⟨true, "hunter2"⟩

/-- A public-ring entity for the sample email. -/
def entAlice : Entity := ⟨[identAlice], keyPlain⟩

/-- A public-ring entity for a different email. -/
def entBob : Entity := ⟨[identBob], keyPlain⟩

/-- A private-ring entity for the sample email with an encrypted key. -/
def entAliceSec : Entity := ⟨[identAlice], keyEncrypted⟩

/-- A key directory holding only `pubring.kbx` (no `pubring.gpg`), whose
keyrings do contain the sample identity. -/
def envKbxOnly : GpgEnv :=
  ⟨false, true, true, .ok [entAlice], .ok [entAliceSec]⟩

/-- A key directory holding `pubring.gpg` and `secring.gpg`, the private
key encrypted. -/
def envFull : GpgEnv :=
  ⟨true, false, true, .ok [entAlice], .ok [entAliceSec]⟩

/-- Client state with the correct passphrase for `keyEncrypted`. -/
def gExPass : GorjunServer := { gEx with Passphrase := "hunter2" }

/-- Client state with the wrong passphrase for `keyEncrypted`. -/
def gExWrongPass : GorjunServer := { gEx with Passphrase := "wrong" }

/-- Client state for an email absent from the sample public ring. -/
def gBob : GorjunServer := { gEx with Email := "bob@example.com" }

/-- A key directory whose public ring has the sample key but whose private
ring does not. -/
def envSecMissing : GpgEnv :=
  ⟨true, false, true, .ok [entAlice], .ok [entBob]⟩

/-! Theorems settling the claims. -/

/-- Reduction of `SignToken` once both keyrings open, parse and contain a
matching entity: the result is the (wrapped) outcome of the detached
signing step on the possibly-decrypted private key. -/
theorem signToken_reduce (g : GorjunServer) (env : GpgEnv) (tok : String)
    (pub sec : List Entity) (pe e : Entity)
    (hdir : g.GPGDirectory ≠ "")
    (hpg : env.hasPubringGpg = true)
    (hpp : env.pubringParse = .ok pub)
    (hpe : getKeyByEmail pub g.Email = some pe)
    (hsr : env.hasSecring = true)
    (hsp : env.secringParse = .ok sec)
    (hse : getKeyByEmail sec g.Email = some e) :
    SignToken g env tok =
      match armoredDetachSign
          (if g.Passphrase ≠ "" then decryptPrivateKey e.privKey g.Passphrase
            else e.privKey) tok with
      | .error e2 => .error ("Failed to sign token: " ++ e2)
      | .ok s => .ok s := by
  simp [SignToken, hdir, hpg, hpp, hpe, hsr, hsp, hse]

/-- C9: for every input, `DownloadFile` and `DownloadFileByID` return
success (`none` error) and leave the client state untouched — download is
an unimplemented no-op. -/
theorem download_is_noop_success :
    ∀ (g : GorjunServer) (a b : String),
      DownloadFile g a b = (g, none) ∧ DownloadFileByID g a b = (g, none) :=
  fun _ _ _ => ⟨rfl, rfl⟩

/-- C8: whenever the lookup yields a non-empty record list, `RemoveFile`
issues the deletion for exactly the id of the first record, regardless of the
remaining records. -/
theorem removeFile_deletes_first_record (f : GorjunFile) (rest : List GorjunFile) :
    RemoveFile (.ok (f :: rest)) = .delete f.Id :=
  rfl

/-- C2 (code bug): when the lookup succeeds with zero records, `RemoveFile`
does index into the empty result sequence (`file[0]`, a runtime panic)
instead of returning a FileNotFound-class error. -/
theorem removeFile_empty_lookup_panics :
    RemoveFile (.ok []) = .indexPanic :=
  rfl

/-- C5 (counterexample): a token-code response with an empty body is not an
error — `GetAuthTokenCode` succeeds and stores the empty string as the
`TokenCode`, contradicting "empty body causes a ChallengeRequestFailed". -/
theorem getAuthTokenCode_empty_body_succeeds :
    GetAuthTokenCode gEx (.ok "") = ({ gEx with TokenCode := "" }, none) :=
  rfl

/-- C5 (amended): transport errors and body-read errors fail with a
wrapped error and leave the state unchanged; any successfully read body —
including the empty one — is stored as the `TokenCode` with success. -/
theorem getAuthTokenCode_error_paths (g : GorjunServer) (e data : String) :
    GetAuthTokenCode g (.transportErr e)
        = (g, some ("Failed to retrieve unsigned token: " ++ e)) ∧
      GetAuthTokenCode g (.readErr e)
        = (g, some ("Failed to read body from " ++ g.Hostname ++ ": " ++ e)) ∧
      GetAuthTokenCode g (.ok data) = ({ g with TokenCode := data }, none) :=
  ⟨rfl, rfl, rfl⟩

/-- C6: the envelope `GetActiveToken` submits in the `message` form field
is exactly the fixed framing: signed-message header line, hash line, blank
line, the literal challenge code, a newline, the signature block, and a
trailing newline, in that order; the `user` field carries the username. -/
theorem signedEnvelope_framing (g : GorjunServer) (signed : String) (resp : FetchResult) :
    (GetActiveToken g signed resp).1.message
        = "-----BEGIN PGP SIGNED MESSAGE-----\n" ++ "Hash: SHA256\n" ++ "\n"
            ++ g.TokenCode ++ "\n" ++ signed ++ "\n" ∧
      (GetActiveToken g signed resp).1.user = g.Username := by
  have hlit : ("-----BEGIN PGP SIGNED MESSAGE-----\n" ++ "Hash: SHA256\n" ++ "\n" : String)
      = "-----BEGIN PGP SIGNED MESSAGE-----\nHash: SHA256\n\n" := rfl
  exact ⟨by rw [hlit]; rfl, rfl⟩

/-- C3 (counterexample): on the 6-character body `"denied"` the exchange
fails, but the returned error message is the body prefixed with
`"Failed to retrieve active token: "` — it is not equal to the raw body. -/
theorem getActiveToken_errmsg_not_raw_body :
    (GetActiveToken gEx "sig" (.ok "denied")).2.2
        = some "Failed to retrieve active token: denied" ∧
      (GetActiveToken gEx "sig" (.ok "denied")).2.2 ≠ some "denied" := by
  exact ⟨rfl, by decide⟩

/-- C3 (amended): a 64-character body is stored verbatim as the active
token with success; any other body length fails and the error message is
the raw body surfaced verbatim behind the fixed prefix
`"Failed to retrieve active token: "`. -/
theorem getActiveToken_length_dispatch (g : GorjunServer) (signed data : String) :
    (data.length = 64 →
        (GetActiveToken g signed (.ok data)).2.1.Token = data ∧
          (GetActiveToken g signed (.ok data)).2.2 = none) ∧
      (data.length ≠ 64 →
        (GetActiveToken g signed (.ok data)).2.2
          = some ("Failed to retrieve active token: " ++ data)) := by
  constructor
  · intro h
    simp [GetActiveToken, h]
  · intro h
    simp [GetActiveToken, h]

/-- Witness for C3: the dispatch evaluated on a concrete 64-character body
and a concrete short body. -/
theorem getActiveToken_length_dispatch_app :
    ((GetActiveToken gEx "sig" (.ok tok64)).2.1.Token = tok64 ∧
        (GetActiveToken gEx "sig" (.ok tok64)).2.2 = none) ∧
      (GetActiveToken gEx "sig" (.ok "denied")).2.2
        = some ("Failed to retrieve active token: " ++ "denied") :=
  ⟨(getActiveToken_length_dispatch gEx "sig" tok64).1 (by decide),
    (getActiveToken_length_dispatch gEx "sig" "denied").2 (by decide)⟩

/-- C10: when the body length is not 64, `GetActiveToken` first stores the
body in `Token` but then clears it, so after the error returns the
`Token` field is the empty string (and the error is present). -/
theorem getActiveToken_clears_rejected_token (g : GorjunServer) (signed data : String)
    (h : data.length ≠ 64) :
    (GetActiveToken g signed (.ok data)).2.1.Token = "" ∧
      (GetActiveToken g signed (.ok data)).2.2
        = some ("Failed to retrieve active token: " ++ data) := by
  simp [GetActiveToken, h]

/-- Witness for C10: the rejected 6-character body leaves an empty token. -/
theorem getActiveToken_clears_rejected_token_app :
    (GetActiveToken gEx "sig" (.ok "denied")).2.1.Token = "" ∧
      (GetActiveToken gEx "sig" (.ok "denied")).2.2
        = some ("Failed to retrieve active token: " ++ "denied") :=
  getActiveToken_clears_rejected_token gEx "sig" "denied" (by decide)

/-- C1 (code bug): in a key directory holding only `pubring.kbx` — whose
rings do contain the key for the identity — `SignToken` fails to open the public
keyring: the fallback path is computed for the existence check but the
hardcoded `pubring.gpg` path is opened (auth.go line 113). -/
theorem signToken_kbx_only_fails_to_open :
    getKeyByEmail [entAlice] gEx.Email = some entAlice ∧
      SignToken gEx envKbxOnly gEx.TokenCode
        = .error "Failed to open public keyring file: file does not exist" :=
  ⟨rfl, rfl⟩

/-- C4: against an encrypted private key, `SignToken` fails with the
wrapped signing error whenever the supplied passphrase is wrong or empty
(the ignored decryption failure leaves the key encrypted and the signing
step rejects it), and succeeds with the correct non-empty passphrase. -/
theorem signToken_passphrase_check
    (g : GorjunServer) (env : GpgEnv) (tok : String)
    (pub sec : List Entity) (pe e : Entity)
    (hdir : g.GPGDirectory ≠ "")
    (hpg : env.hasPubringGpg = true)
    (hpp : env.pubringParse = .ok pub)
    (hpe : getKeyByEmail pub g.Email = some pe)
    (hsr : env.hasSecring = true)
    (hsp : env.secringParse = .ok sec)
    (hse : getKeyByEmail sec g.Email = some e)
    (henc : e.privKey.encrypted = true) :
    (g.Passphrase ≠ e.privKey.passphraseOf →
        SignToken g env tok
          = .error "Failed to sign token: signing key must be decrypted") ∧
      (g.Passphrase = "" →
        SignToken g env tok
          = .error "Failed to sign token: signing key must be decrypted") ∧
      (g.Passphrase = e.privKey.passphraseOf → g.Passphrase ≠ "" →
        SignToken g env tok
          = .ok (armoredSig { e.privKey with encrypted := false } tok)) := by
  have hred := signToken_reduce g env tok pub sec pe e hdir hpg hpp hpe hsr hsp hse
  refine ⟨fun hne => ?_, fun hemp => ?_, fun heq hne => ?_⟩
  · rw [hred]
    by_cases hp : g.Passphrase = ""
    · simp [hp, armoredDetachSign, henc]
    · simp [hp, decryptPrivateKey, armoredDetachSign, henc, hne]
  · rw [hred]
    simp [hemp, armoredDetachSign, henc]
  · rw [hred]
    have hne2 : e.privKey.passphraseOf ≠ "" := heq ▸ hne
    simp [hne, decryptPrivateKey, armoredDetachSign, armoredSig, henc, heq, hne2]

/-- Witness for C4: with the encrypted sample key, the empty passphrase
fails, the wrong passphrase fails, and the correct one signs. -/
theorem signToken_passphrase_check_app :
    SignToken gEx envFull "abc123"
        = .error "Failed to sign token: signing key must be decrypted" ∧
      SignToken gExWrongPass envFull "abc123"
        = .error "Failed to sign token: signing key must be decrypted" ∧
      SignToken gExPass envFull "abc123"
        = .ok (armoredSig { keyEncrypted with encrypted := false } "abc123") :=
  ⟨(signToken_passphrase_check gEx envFull "abc123" [entAlice] [entAliceSec]
      entAlice entAliceSec (by decide) rfl rfl rfl rfl rfl rfl rfl).2.1 rfl,
    (signToken_passphrase_check gExWrongPass envFull "abc123" [entAlice] [entAliceSec]
      entAlice entAliceSec (by decide) rfl rfl rfl rfl rfl rfl rfl).1 (by decide),
    (signToken_passphrase_check gExPass envFull "abc123" [entAlice] [entAliceSec]
      entAlice entAliceSec (by decide) rfl rfl rfl rfl rfl rfl rfl).2.2 rfl (by decide)⟩

/-- C7: `getKeyByEmail` returns the first entity in ring order with an
identity bound to exactly the target email (every earlier entity fails to
match), returns `none` exactly when no entity matches, and `SignToken`
turns a missing public-key match and a missing private-key match into two
distinct errors. -/
theorem getKeyByEmail_first_match_and_error_split :
    (∀ (ring : List Entity) (email : String) (e : Entity),
        getKeyByEmail ring email = some e →
        entityMatches e email = true ∧
          ∃ pre post, ring = pre ++ e :: post ∧
            ∀ f ∈ pre, entityMatches f email = false) ∧
      (∀ (ring : List Entity) (email : String),
        getKeyByEmail ring email = none ↔
          ∀ e ∈ ring, entityMatches e email = false) ∧
      (∀ (g : GorjunServer) (env : GpgEnv) (tok : String) (pub : List Entity),
        g.GPGDirectory ≠ "" → env.hasPubringGpg = true →
        env.pubringParse = .ok pub → getKeyByEmail pub g.Email = none →
        SignToken g env tok
          = .error ("Public key for " ++ g.Email ++ " was not found")) ∧
      (∀ (g : GorjunServer) (env : GpgEnv) (tok : String)
          (pub sec : List Entity) (pe : Entity),
        g.GPGDirectory ≠ "" → env.hasPubringGpg = true →
        env.pubringParse = .ok pub → getKeyByEmail pub g.Email = some pe →
        env.hasSecring = true → env.secringParse = .ok sec →
        getKeyByEmail sec g.Email = none →
        SignToken g env tok
          = .error ("Private key for " ++ g.Email ++ " was not found")) ∧
      (∀ email : String,
        ("Public key for " ++ email ++ " was not found" : String)
          ≠ "Private key for " ++ email ++ " was not found") := by
  refine ⟨?_, ?_, ?_, ?_, ?_⟩
  · intro ring email
    induction ring with
    | nil => intro e h; simp [getKeyByEmail] at h
    | cons a rest ih =>
      intro e h
      simp only [getKeyByEmail] at h
      by_cases hm : entityMatches a email = true
      · rw [if_pos hm] at h
        injection h with h
        subst h
        exact ⟨hm, [], rest, rfl, fun f hf => absurd hf (List.not_mem_nil f)⟩
      · rw [if_neg hm] at h
        obtain ⟨hme, pre, post, hring, hpre⟩ := ih e h
        refine ⟨hme, a :: pre, post, by rw [hring]; rfl, ?_⟩
        intro f hf
        rcases List.mem_cons.mp hf with hfa | hf2
        · subst hfa
          simpa using hm
        · exact hpre f hf2
  · intro ring email
    induction ring with
    | nil => simp [getKeyByEmail]
    | cons a rest ih =>
      by_cases hm : entityMatches a email = true
      · simp [getKeyByEmail, hm]
      · have hm2 : entityMatches a email = false := by simpa using hm
        simp [getKeyByEmail, hm2, ih]
  · intro g env tok pub hdir hpg hpp hnone
    simp [SignToken, hdir, hpg, hpp, hnone]
  · intro g env tok pub sec pe hdir hpg hpp hpe hsr hsp hnone
    simp [SignToken, hdir, hpg, hpp, hpe, hsr, hsp, hnone]
  · intro email h
    have h2 := congrArg String.length h
    rw [String.length_append, String.length_append,
      String.length_append, String.length_append] at h2
    have e1 : ("Public key for " : String).length = 15 := rfl
    have e2 : ("Private key for " : String).length = 16 := rfl
    rw [e1, e2] at h2
    omega

/-- Witness for C7: on a two-entity ring the second entity is returned for
the sample email with the first entity not matching, and the two missing-key
errors are produced on concrete key directories. -/
theorem getKeyByEmail_first_match_app :
    (entityMatches entAlice "alice@example.com" = true ∧
        ∃ pre post, [entBob, entAlice] = pre ++ entAlice :: post ∧
          ∀ f ∈ pre, entityMatches f "alice@example.com" = false) ∧
      SignToken gBob envFull "abc123"
        = .error ("Public key for " ++ gBob.Email ++ " was not found") ∧
      SignToken gEx envSecMissing "abc123"
        = .error ("Private key for " ++ gEx.Email ++ " was not found") :=
  ⟨getKeyByEmail_first_match_and_error_split.1
      [entBob, entAlice] "alice@example.com" entAlice rfl,
    getKeyByEmail_first_match_and_error_split.2.2.1
      gBob envFull "abc123" [entAlice] (by decide) rfl rfl rfl,
    getKeyByEmail_first_match_and_error_split.2.2.2.1
      gEx envSecMissing "abc123" [entAlice] [entBob] entAlice
      (by decide) rfl rfl rfl rfl rfl rfl⟩

end Gorjun
